import Mathlib

/-!
Shallow embedding of the scoring engine of the NES staff scorecard
repository (files `src/lib/scoring/rubric.ts` and `src/lib/scoring/engine.ts`),
together with theorems settling the specification claims about it.

Modelling conventions:
* TypeScript `number` is modelled as `ℚ` (the code performs only comparisons,
  additions, multiplications and one rounding, all exact on the rationals).
* A TypeScript `Record<string, T>` is modelled as an association list
  `List (String × T)` looked up with `List.lookup` (first binding wins);
  an absent key is `none`, mirroring `undefined`.
* `Math.round x` is modelled as `⌊x + 1/2⌋` (JavaScript rounds half-up,
  towards positive infinity).
* The database is modelled explicitly: the rubric-version store is a list of
  rows and the SQL `WHERE effective_month <= $1 ORDER BY effective_month DESC
  LIMIT 1` is an explicit filter / insertion-sort-descending / take-first;
  month strings of shape `YYYY-MM` are compared lexicographically, exactly as
  SQL compares them.
-/

namespace NesScorecard

-- =============================================================================
-- RUBRIC MODEL (src/lib/scoring/rubric.ts)
-- =============================================================================

/-- One error bucket of the admin rules: `{min, max, deduction}`. -/
structure ErrorBucket where
  min : ℚ
  max : ℚ
  deduction : ℚ
deriving DecidableEq, Repr

/-- Admin rules: a map from metric name to its ordered bucket list. -/
structure AdminRules where
  metrics : List (String × List ErrorBucket)
deriving DecidableEq, Repr

/-- Recruiter rules: a per-unit overdue-training penalty and two tier maps. -/
structure RecruiterRules where
  overdue_training_penalty_per : ℚ
  eda_penalty : List (String × ℚ)
  retraining_penalty : List (String × ℚ)
deriving DecidableEq, Repr

/-- The three category weights of a rubric. -/
structure Weights where
  admin : ℚ
  supervisor : ℚ
  recruiter : ℚ
deriving DecidableEq, Repr

/-- A rubric version's JSON content (`RubricV1`). -/
structure RubricV1 where
  weights : Weights
  supervisor_rating_map : List (String × ℚ)
  supervisor_metrics : List String
  admin_rules : AdminRules
  recruiter_rules : RecruiterRules
deriving DecidableEq, Repr

/-- The `value` field of a deduction record: a count or a rating label. -/
inductive DeductionValue where
  | num (q : ℚ)
  | str (s : String)
deriving DecidableEq, Repr

/-- A single explainability record produced by a scorer. -/
structure Deduction where
  metric : String
  value : DeductionValue
  deduction_points : ℚ
  rule_id : String
deriving DecidableEq, Repr

/-- The per-category deduction lists of a computed score. -/
structure DeductionsBreakdown where
  admin : List Deduction
  supervisor : List Deduction
  recruiter : List Deduction
deriving DecidableEq, Repr

/-- Supervisor submission payload: five qualitative rating labels. -/
structure SupervisorSubmissionPayload where
  attitude : String
  reliability : String
  proactivity : String
  flexibility : String
  individual_interaction : String
deriving DecidableEq, Repr

/-- Admin submission payload: five error counts and an optional rating. -/
structure AdminSubmissionPayload where
  isp_goal_errors : ℚ
  isp_behavior_errors : ℚ
  mar_errors : ℚ
  attendance_tardies_callouts : ℚ
  attendance_ncns : ℚ
  individual_interaction : Option String
deriving DecidableEq, Repr

/-- Recruiter submission payload: three counts. -/
structure RecruiterSubmissionPayload where
  overdue_trainings : ℚ
  retrainings : ℚ
  edas_past_6_months : ℚ
deriving DecidableEq, Repr

/-- The built-in default rubric `DEFAULT_RUBRIC_V1`. -/
def DEFAULT_RUBRIC_V1 : RubricV1 where
  weights := { admin := 4/10, supervisor := 4/10, recruiter := 2/10 }
  supervisor_rating_map :=
    [("Outstanding", 0), ("Exceeds Expectations", 3), ("Meets Expectations", 8),
     ("Needs Improvement", 13), ("Unsatisfactory", 20)]
  supervisor_metrics :=
    ["attitude", "reliability", "proactivity", "flexibility", "individual_interaction"]
  admin_rules :=
    { metrics :=
        [("isp_goal_errors",
           [{ min := 1, max := 2, deduction := 5 }, { min := 3, max := 5, deduction := 10 },
            { min := 6, max := 999, deduction := 20 }]),
         ("isp_behavior_errors",
           [{ min := 1, max := 2, deduction := 5 }, { min := 3, max := 5, deduction := 10 },
            { min := 6, max := 999, deduction := 20 }]),
         ("mar_errors",
           [{ min := 1, max := 2, deduction := 5 }, { min := 3, max := 5, deduction := 10 },
            { min := 6, max := 999, deduction := 20 }]),
         ("attendance_tardies_callouts",
           [{ min := 1, max := 2, deduction := 5 }, { min := 3, max := 5, deduction := 10 },
            { min := 6, max := 999, deduction := 20 }]),
         ("attendance_ncns",
           [{ min := 1, max := 2, deduction := 5 }, { min := 3, max := 5, deduction := 10 },
            { min := 6, max := 999, deduction := 20 }])] }
  recruiter_rules :=
    { overdue_training_penalty_per := 15
      eda_penalty := [("1", 40), ("2+", 80)]
      retraining_penalty := [("1", 5), ("2+", 10)] }

/-- Bucket lookup `findDeductionForCount(count, buckets)`: 0 on a zero count,
otherwise the first bucket containing the count, otherwise the last bucket's
deduction when the count exceeds its `max`, otherwise 0. -/
def findDeductionForCount (count : ℚ) (buckets : List ErrorBucket) : ℚ :=
  if count = 0 then 0
  else
    match buckets.find? (fun b => decide (b.min ≤ count ∧ count ≤ b.max)) with
    | some b => b.deduction
    | none =>
      match buckets.getLast? with
      | some last => if last.max < count then last.deduction else 0
      | none => 0

/-- Tiered penalty lookup `findTieredPenalty(count, tiers)`: 0 on a zero
count, the `"1"` tier on a count of exactly 1 when present, the `"2+"` tier on
a count of at least 2 when present, otherwise 0. -/
def findTieredPenalty (count : ℚ) (tiers : List (String × ℚ)) : ℚ :=
  if count = 0 then 0
  else
    let t1 := tiers.lookup ("1")
    if count = 1 ∧ t1.isSome then t1.getD 0
    else
      let t2 := tiers.lookup ("2+")
      if 2 ≤ count ∧ t2.isSome then t2.getD 0
      else 0

-- =============================================================================
-- CATEGORY SCORERS (src/lib/scoring/engine.ts)
-- =============================================================================

/-- Result of a category scorer: `{score, deductions}`. -/
structure ScoreResult where
  score : ℚ
  deductions : List Deduction
deriving DecidableEq, Repr

/-- The fixed `metrics` array iterated by `calculateSupervisorScore`. -/
def supervisorMetricNames : List String :=
  ["attitude", "reliability", "proactivity", "flexibility", "individual_interaction"]

/-- The rating `payload[metric]` read by the supervisor scoring loop. -/
def supervisorRating (payload : SupervisorSubmissionPayload) (metric : String) : String :=
  if metric = "attitude" then payload.attitude
  else if metric = "reliability" then payload.reliability
  else if metric = "proactivity" then payload.proactivity
  else if metric = "flexibility" then payload.flexibility
  else payload.individual_interaction

/-- One iteration of the supervisor scoring loop: look the rating up in the
rating map (`?? 0` on a missing label), and push a deduction record and add
the points exactly when they are positive. -/
def supervisorStep (ratingMap : List (String × ℚ)) (payload : SupervisorSubmissionPayload)
    (acc : List Deduction × ℚ) (metric : String) : List Deduction × ℚ :=
  let rating := supervisorRating payload metric
  let deductionPoints := (ratingMap.lookup rating).getD 0
  if 0 < deductionPoints then
    (acc.1 ++ [{ metric := metric, value := DeductionValue.str rating,
                 deduction_points := deductionPoints,
                 rule_id := "supervisor_rating_" ++ metric }],
     acc.2 + deductionPoints)
  else acc

/-- Supervisor scorer: starts at 100, deducts per rating, floors at 0. -/
def calculateSupervisorScore (payload : SupervisorSubmissionPayload)
    (rubric : RubricV1) : ScoreResult :=
  let r := supervisorMetricNames.foldl
    (supervisorStep rubric.supervisor_rating_map payload) ([], 0)
  { score := max 0 (100 - r.2), deductions := r.1 }

/-- The `metricMap` built by `calculateAdminScore`: the five counts keyed by
metric name, in declaration order. -/
def adminMetricMap (payload : AdminSubmissionPayload) : List (String × ℚ) :=
  [("isp_goal_errors", payload.isp_goal_errors),
   ("isp_behavior_errors", payload.isp_behavior_errors),
   ("mar_errors", payload.mar_errors),
   ("attendance_tardies_callouts", payload.attendance_tardies_callouts),
   ("attendance_ncns", payload.attendance_ncns)]

/-- One iteration of the admin scoring loop: skip a metric absent from the
rubric (`if (!buckets) continue`), otherwise run the bucket lookup and push a
deduction record and add the points exactly when they are positive. -/
def adminStep (rules : AdminRules) (acc : List Deduction × ℚ)
    (entry : String × ℚ) : List Deduction × ℚ :=
  match rules.metrics.lookup entry.1 with
  | none => acc
  | some buckets =>
    let deductionPoints := findDeductionForCount entry.2 buckets
    if 0 < deductionPoints then
      (acc.1 ++ [{ metric := entry.1, value := DeductionValue.num entry.2,
                   deduction_points := deductionPoints,
                   rule_id := "admin_" ++ entry.1 ++ "_bucket" }],
       acc.2 + deductionPoints)
    else acc

/-- Admin scorer: starts at 100, deducts per error-count bucket, floors at 0. -/
def calculateAdminScore (payload : AdminSubmissionPayload)
    (rubric : RubricV1) : ScoreResult :=
  let r := (adminMetricMap payload).foldl (adminStep rubric.admin_rules) ([], 0)
  { score := max 0 (100 - r.2), deductions := r.1 }

/-- Recruiter scorer: three independent rules (overdue trainings, EDAs,
retrainings), each applied — and each pushing a deduction record — whenever
its count is positive. -/
def calculateRecruiterScore (payload : RecruiterSubmissionPayload)
    (rubric : RubricV1) : ScoreResult :=
  let acc0 : List Deduction × ℚ := ([], 0)
  let acc1 :=
    if 0 < payload.overdue_trainings then
      let deductionPoints :=
        payload.overdue_trainings * rubric.recruiter_rules.overdue_training_penalty_per
      (acc0.1 ++ [{ metric := "overdue_trainings",
                    value := DeductionValue.num payload.overdue_trainings,
                    deduction_points := deductionPoints,
                    rule_id := "recruiter_overdue_trainings" }],
       acc0.2 + deductionPoints)
    else acc0
  let acc2 :=
    if 0 < payload.edas_past_6_months then
      let deductionPoints :=
        findTieredPenalty payload.edas_past_6_months rubric.recruiter_rules.eda_penalty
      (acc1.1 ++ [{ metric := "edas_past_6_months",
                    value := DeductionValue.num payload.edas_past_6_months,
                    deduction_points := deductionPoints,
                    rule_id := "recruiter_eda_penalty" }],
       acc1.2 + deductionPoints)
    else acc1
  let acc3 :=
    if 0 < payload.retrainings then
      let deductionPoints :=
        findTieredPenalty payload.retrainings rubric.recruiter_rules.retraining_penalty
      (acc2.1 ++ [{ metric := "retrainings",
                    value := DeductionValue.num payload.retrainings,
                    deduction_points := deductionPoints,
                    rule_id := "recruiter_retraining_penalty" }],
       acc2.2 + deductionPoints)
    else acc2
  { score := max 0 (100 - acc3.2), deductions := acc3.1 }

-- =============================================================================
-- RUBRIC RESOLUTION (src/lib/scoring/engine.ts, getRubricForMonth)
-- =============================================================================

/-- One row of the `rubric_versions` store. -/
structure RubricVersionRow where
  rubric_version : String
  effective_month : String
  rubric_json : RubricV1
deriving DecidableEq, Repr

/-- SQL text comparison of two `YYYY-MM` month strings: lexicographic on the
characters, exactly the collation the query `effective_month <= $1` uses. -/
def monthLe (a b : String) : Prop := a.data ≤ b.data

instance (a b : String) : Decidable (monthLe a b) :=
  inferInstanceAs (Decidable (a.data ≤ b.data))

/-- Insertion into a list kept sorted by `effective_month` descending. -/
def insertByEffectiveDesc (r : RubricVersionRow) :
    List RubricVersionRow → List RubricVersionRow
  | [] => [r]
  | x :: xs =>
    if monthLe x.effective_month r.effective_month then r :: x :: xs
    else x :: insertByEffectiveDesc r xs

/-- Insertion sort by `effective_month` descending, modelling SQL
`ORDER BY effective_month DESC`. -/
def sortByEffectiveDesc : List RubricVersionRow → List RubricVersionRow
  | [] => []
  | x :: xs => insertByEffectiveDesc x (sortByEffectiveDesc xs)

/-- The SQL query of `getRubricForMonth`: rows with `effective_month ≤ month`,
ordered by `effective_month` descending, `LIMIT 1`. -/
def queryLatestApplicable (store : List RubricVersionRow) (month : String) :
    List RubricVersionRow :=
  (sortByEffectiveDesc (store.filter (fun r => decide (monthLe r.effective_month month)))).take 1

/-- Rubric resolution: the latest stored rubric effective no later than the
month, else the built-in default under the `"default"` label. -/
def getRubricForMonth (store : List RubricVersionRow) (month : String) :
    String × RubricV1 :=
  match queryLatestApplicable store month with
  | [] => ("default", DEFAULT_RUBRIC_V1)
  | r :: _ => (r.rubric_version, r.rubric_json)

-- =============================================================================
-- SCORE AGGREGATION (src/lib/scoring/engine.ts, computeScoresForEmployee)
-- =============================================================================

/-- One row of the `submissions_raw` query result: a role together with its
payload (the code casts `payload_json` according to `role`). -/
inductive SubmissionRow where
  | admin (payload : AdminSubmissionPayload)
  | supervisor (payload : SupervisorSubmissionPayload)
  | recruiter (payload : RecruiterSubmissionPayload)
deriving DecidableEq, Repr

/-- The result record of `computeScoresForEmployee`. -/
structure ComputedScore where
  adminScore : Option ℚ
  supervisorScore : Option ℚ
  recruiterScore : Option ℚ
  finalScore : Option ℤ
  deductions : DeductionsBreakdown
  rubricVersion : String
deriving DecidableEq, Repr

/-- JavaScript `Math.round`: round half-up, towards positive infinity. -/
def jsRound (q : ℚ) : ℤ := ⌊q + 1 / 2⌋

/-- Mutable state of the submission loop of `computeScoresForEmployee`. -/
structure ScoreAcc where
  adminScore : Option ℚ
  supervisorScore : Option ℚ
  recruiterScore : Option ℚ
  deductions : DeductionsBreakdown
deriving DecidableEq, Repr

/-- The `switch (submission.role)` body of the submission loop. -/
def processSubmission (rubric : RubricV1) (acc : ScoreAcc) (row : SubmissionRow) : ScoreAcc :=
  match row with
  | .admin payload =>
    let result := calculateAdminScore payload rubric
    { acc with adminScore := some result.score,
               deductions := { acc.deductions with admin := result.deductions } }
  | .supervisor payload =>
    let result := calculateSupervisorScore payload rubric
    { acc with supervisorScore := some result.score,
               deductions := { acc.deductions with supervisor := result.deductions } }
  | .recruiter payload =>
    let result := calculateRecruiterScore payload rubric
    { acc with recruiterScore := some result.score,
               deductions := { acc.deductions with recruiter := result.deductions } }

/-- Score aggregator `computeScoresForEmployee`, with the two store reads made
explicit: the rubric-version store and the submission rows for the employee
and month are parameters. -/
def computeScoresForEmployee (store : List RubricVersionRow) (month : String)
    (submissions : List SubmissionRow) : ComputedScore :=
  let resolved := getRubricForMonth store month
  let rubric := resolved.2
  let acc := submissions.foldl (processSubmission rubric)
    { adminScore := none, supervisorScore := none, recruiterScore := none,
      deductions := { admin := [], supervisor := [], recruiter := [] } }
  let finalScore : Option ℤ :=
    match acc.adminScore, acc.supervisorScore, acc.recruiterScore with
    | some a, some s, some r =>
      some (jsRound (a * rubric.weights.admin + s * rubric.weights.supervisor +
        r * rubric.weights.recruiter))
    | _, _, _ => none
  { adminScore := acc.adminScore, supervisorScore := acc.supervisorScore,
    recruiterScore := acc.recruiterScore, finalScore := finalScore,
    deductions := acc.deductions, rubricVersion := resolved.1 }

-- =============================================================================
-- SERIALIZATION (JSON.stringify(deductions) in computeScoresForEmployee)
-- =============================================================================

/-- Decimal-free rendering of a rational, as a deterministic stand-in for
JavaScript number formatting inside `JSON.stringify`. -/
def ratJson (q : ℚ) : String :=
  if q.den = 1 then toString q.num else toString q.num ++ "/" ++ toString q.den

/-- A JSON string literal. -/
def jsonString (s : String) : String := "\"" ++ s ++ "\""

/-- JSON rendering of a deduction `value` field. -/
def deductionValueJson : DeductionValue → String
  | .num q => ratJson q
  | .str s => jsonString s

/-- JSON rendering of one deduction record. -/
def deductionJson (d : Deduction) : String :=
  "\x7b\"metric\":" ++ jsonString d.metric ++ ",\"value\":" ++
    deductionValueJson d.value ++ ",\"deduction_points\":" ++
    ratJson d.deduction_points ++ ",\"rule_id\":" ++ jsonString d.rule_id ++ "\x7d"

/-- JSON rendering of a deduction list. -/
def deductionListJson (ds : List Deduction) : String :=
  "[" ++ String.intercalate (",") (ds.map deductionJson) ++ "]"

/-- JSON rendering of the full deductions breakdown, the `deductions_json`
column value. -/
def deductionsBreakdownJson (b : DeductionsBreakdown) : String :=
  "\x7b\"admin\":" ++ deductionListJson b.admin ++ ",\"supervisor\":" ++
    deductionListJson b.supervisor ++ ",\"recruiter\":" ++
    deductionListJson b.recruiter ++ "\x7d"

-- =============================================================================
-- DERIVED DEFINITIONS USED BY THE PROOFS
-- =============================================================================

/-- The deduction the supervisor loop computes for one metric. -/
def supervisorDeductionPoints (ratingMap : List (String × ℚ))
    (payload : SupervisorSubmissionPayload) (metric : String) : ℚ :=
  (ratingMap.lookup (supervisorRating payload metric)).getD 0

/-- The deduction record the supervisor loop pushes for one metric. -/
def supervisorDeductionRecord (ratingMap : List (String × ℚ))
    (payload : SupervisorSubmissionPayload) (metric : String) : Deduction :=
  { metric := metric,
    value := DeductionValue.str (supervisorRating payload metric),
    deduction_points := supervisorDeductionPoints ratingMap payload metric,
    rule_id := "supervisor_rating_" ++ metric }

/-- The deduction the admin loop computes for one metric entry (0 when the
metric is absent from the rubric's metric map). -/
def adminDeductionPoints (rules : AdminRules) (entry : String × ℚ) : ℚ :=
  match rules.metrics.lookup entry.1 with
  | none => 0
  | some buckets => findDeductionForCount entry.2 buckets

/-- The deduction record the admin loop pushes for one metric entry. -/
def adminDeductionRecord (rules : AdminRules) (entry : String × ℚ) : Deduction :=
  { metric := entry.1,
    value := DeductionValue.num entry.2,
    deduction_points := adminDeductionPoints rules entry,
    rule_id := "admin_" ++ entry.1 ++ "_bucket" }

/-- The deduction record the recruiter scorer pushes for overdue trainings. -/
def recruiterOverdueRecord (payload : RecruiterSubmissionPayload) (rubric : RubricV1) : Deduction :=
  { metric := "overdue_trainings",
    value := DeductionValue.num payload.overdue_trainings,
    deduction_points :=
      payload.overdue_trainings * rubric.recruiter_rules.overdue_training_penalty_per,
    rule_id := "recruiter_overdue_trainings" }

/-- The deduction record the recruiter scorer pushes for EDAs. -/
def recruiterEdaRecord (payload : RecruiterSubmissionPayload) (rubric : RubricV1) : Deduction :=
  { metric := "edas_past_6_months",
    value := DeductionValue.num payload.edas_past_6_months,
    deduction_points :=
      findTieredPenalty payload.edas_past_6_months rubric.recruiter_rules.eda_penalty,
    rule_id := "recruiter_eda_penalty" }

/-- The deduction record the recruiter scorer pushes for retrainings. -/
def recruiterRetrainingRecord (payload : RecruiterSubmissionPayload) (rubric : RubricV1) : Deduction :=
  { metric := "retrainings",
    value := DeductionValue.num payload.retrainings,
    deduction_points :=
      findTieredPenalty payload.retrainings rubric.recruiter_rules.retraining_penalty,
    rule_id := "recruiter_retraining_penalty" }

/-- A rubric identical to the default except for a negative per-unit
overdue-training penalty (nothing in the code rules this value out). -/
def negativePenaltyRubric : RubricV1 :=
  { DEFAULT_RUBRIC_V1 with
    recruiter_rules :=
      { DEFAULT_RUBRIC_V1.recruiter_rules with overdue_training_penalty_per := -5 } }

/-- A rubric identical to the default except for a zero per-unit
overdue-training penalty. -/
def zeroPenaltyRubric : RubricV1 :=
  { DEFAULT_RUBRIC_V1 with
    recruiter_rules :=
      { DEFAULT_RUBRIC_V1.recruiter_rules with overdue_training_penalty_per := 0 } }

/-- A stored rubric version effective from January 2025. -/
def demoRow2501 : RubricVersionRow :=
  { rubric_version := "2025.01", effective_month := "2025-01",
    rubric_json := DEFAULT_RUBRIC_V1 }

/-- A stored rubric version effective from June 2025. -/
def demoRow2506 : RubricVersionRow :=
  { rubric_version := "2025.06", effective_month := "2025-06",
    rubric_json := DEFAULT_RUBRIC_V1 }

/-- A rubric-version store holding versions effective 2025-01 and 2025-06. -/
def demoRubricStore : List RubricVersionRow := [demoRow2501, demoRow2506]

/-- Admin payload scoring 90 under the default rubric (3 ISP goal errors). -/
def witnessAdminPayload : AdminSubmissionPayload :=
  { isp_goal_errors := 3, isp_behavior_errors := 0, mar_errors := 0,
    attendance_tardies_callouts := 0, attendance_ncns := 0,
    individual_interaction := none }

/-- Supervisor payload scoring 85 under the default rubric (five ratings of
3 deduction points each). -/
def witnessSupervisorPayload : SupervisorSubmissionPayload :=
  { attitude := "Exceeds Expectations", reliability := "Exceeds Expectations",
    proactivity := "Exceeds Expectations", flexibility := "Exceeds Expectations",
    individual_interaction := "Exceeds Expectations" }

/-- Recruiter payload scoring 70 under the default rubric (2 overdue
trainings at 15 points each). -/
def witnessRecruiterPayload : RecruiterSubmissionPayload :=
  { overdue_trainings := 2, retrainings := 0, edas_past_6_months := 0 }

/-- One submission row per role, for the aggregation witness. -/
def witnessSubmissions : List SubmissionRow :=
  [SubmissionRow.admin witnessAdminPayload,
   SubmissionRow.supervisor witnessSupervisorPayload,
   SubmissionRow.recruiter witnessRecruiterPayload]

/-- Supervisor payload whose attitude rating is a label unknown to the
default rating map. -/
def witnessUnknownSupPayload : SupervisorSubmissionPayload :=
  { attitude := "Phenomenal", reliability := "Outstanding",
    proactivity := "Outstanding", flexibility := "Outstanding",
    individual_interaction := "Outstanding" }

-- =============================================================================
-- HELPER CHARACTERIZATIONS OF THE SCORING LOOPS
-- =============================================================================

lemma supervisorStep_eq (ratingMap : List (String × ℚ))
    (payload : SupervisorSubmissionPayload) (acc : List Deduction × ℚ) (metric : String) :
    supervisorStep ratingMap payload acc metric =
      if 0 < supervisorDeductionPoints ratingMap payload metric then
        (acc.1 ++ [supervisorDeductionRecord ratingMap payload metric],
         acc.2 + supervisorDeductionPoints ratingMap payload metric)
      else acc := rfl

lemma supervisorStep_foldl (ratingMap : List (String × ℚ))
    (payload : SupervisorSubmissionPayload) (ms : List String) :
    ∀ (ds : List Deduction) (t : ℚ),
    ms.foldl (supervisorStep ratingMap payload) (ds, t) =
      (ds ++ ((ms.filter (fun m =>
          decide (0 < supervisorDeductionPoints ratingMap payload m))).map
          (supervisorDeductionRecord ratingMap payload)),
       t + (((ms.filter (fun m =>
          decide (0 < supervisorDeductionPoints ratingMap payload m))).map
          (supervisorDeductionPoints ratingMap payload)).sum)) := by
  induction ms with
  | nil => intro ds t; simp
  | cons m ms ih =>
    intro ds t
    rw [List.foldl_cons, List.filter_cons, supervisorStep_eq]
    by_cases h : 0 < supervisorDeductionPoints ratingMap payload m
    · rw [if_pos h, ih]
      simp [h, add_assoc]
    · rw [if_neg h, ih]
      simp [h]

/-- Full characterization of the supervisor scorer: one deduction record per
metric with a positive deduction, in metric order, and the score clamped. -/
lemma calculateSupervisorScore_eq (payload : SupervisorSubmissionPayload)
    (rubric : RubricV1) :
    calculateSupervisorScore payload rubric =
      { score := max 0 (100 -
          (((supervisorMetricNames.filter (fun m =>
              decide (0 < supervisorDeductionPoints rubric.supervisor_rating_map payload m))).map
              (supervisorDeductionPoints rubric.supervisor_rating_map payload)).sum)),
        deductions := (supervisorMetricNames.filter (fun m =>
            decide (0 < supervisorDeductionPoints rubric.supervisor_rating_map payload m))).map
            (supervisorDeductionRecord rubric.supervisor_rating_map payload) } := by
  unfold calculateSupervisorScore
  rw [supervisorStep_foldl]
  simp

lemma adminStep_eq (rules : AdminRules) (acc : List Deduction × ℚ) (entry : String × ℚ) :
    adminStep rules acc entry =
      if 0 < adminDeductionPoints rules entry then
        (acc.1 ++ [adminDeductionRecord rules entry],
         acc.2 + adminDeductionPoints rules entry)
      else acc := by
  unfold adminStep adminDeductionRecord adminDeductionPoints
  cases hbk : rules.metrics.lookup entry.1 with
  | none => simp
  | some buckets => rfl

lemma adminStep_foldl (rules : AdminRules) (entries : List (String × ℚ)) :
    ∀ (ds : List Deduction) (t : ℚ),
    entries.foldl (adminStep rules) (ds, t) =
      (ds ++ ((entries.filter (fun e => decide (0 < adminDeductionPoints rules e))).map
          (adminDeductionRecord rules)),
       t + (((entries.filter (fun e => decide (0 < adminDeductionPoints rules e))).map
          (adminDeductionPoints rules)).sum)) := by
  induction entries with
  | nil => intro ds t; simp
  | cons e es ih =>
    intro ds t
    rw [List.foldl_cons, List.filter_cons, adminStep_eq]
    by_cases h : 0 < adminDeductionPoints rules e
    · rw [if_pos h, ih]
      simp [h, add_assoc]
    · rw [if_neg h, ih]
      simp [h]

/-- Full characterization of the admin scorer: one deduction record per metric
entry with a positive deduction, in declaration order, and the score clamped. -/
lemma calculateAdminScore_eq (payload : AdminSubmissionPayload) (rubric : RubricV1) :
    calculateAdminScore payload rubric =
      { score := max 0 (100 -
          ((((adminMetricMap payload).filter (fun e =>
              decide (0 < adminDeductionPoints rubric.admin_rules e))).map
              (adminDeductionPoints rubric.admin_rules)).sum)),
        deductions := ((adminMetricMap payload).filter (fun e =>
            decide (0 < adminDeductionPoints rubric.admin_rules e))).map
            (adminDeductionRecord rubric.admin_rules) } := by
  unfold calculateAdminScore
  rw [adminStep_foldl]
  simp

/-- Full characterization of the recruiter scorer: one deduction record per
rule whose count is positive (regardless of the deduction amount), in rule
order, and the score clamped. -/
lemma calculateRecruiterScore_eq (payload : RecruiterSubmissionPayload) (rubric : RubricV1) :
    calculateRecruiterScore payload rubric =
      { score := max 0 (100 -
          ((if 0 < payload.overdue_trainings then
              payload.overdue_trainings * rubric.recruiter_rules.overdue_training_penalty_per
            else 0) +
           (if 0 < payload.edas_past_6_months then
              findTieredPenalty payload.edas_past_6_months rubric.recruiter_rules.eda_penalty
            else 0) +
           (if 0 < payload.retrainings then
              findTieredPenalty payload.retrainings rubric.recruiter_rules.retraining_penalty
            else 0))),
        deductions :=
          (if 0 < payload.overdue_trainings then [recruiterOverdueRecord payload rubric] else []) ++
          (if 0 < payload.edas_past_6_months then [recruiterEdaRecord payload rubric] else []) ++
          (if 0 < payload.retrainings then [recruiterRetrainingRecord payload rubric] else []) } := by
  unfold calculateRecruiterScore recruiterOverdueRecord recruiterEdaRecord recruiterRetrainingRecord
  split_ifs <;> simp

-- =============================================================================
-- SMALL ORDER AND LOOKUP HELPERS
-- =============================================================================

lemma score_clamp_nonneg (t : ℚ) : 0 ≤ max 0 (100 - t) := le_max_left 0 _

lemma score_clamp_le (t : ℚ) (ht : 0 ≤ t) : max 0 (100 - t) ≤ 100 :=
  max_le (by norm_num) (by linarith)

lemma lookup_eq_some_mem {β : Type} (l : List (String × β)) (k : String) (v : β)
    (h : l.lookup k = some v) : ∃ k', (k', v) ∈ l := by
  induction l with
  | nil => simp [List.lookup] at h
  | cons kv rest ih =>
    rw [List.lookup] at h
    cases hk : k == kv.1 with
    | true =>
      rw [hk] at h
      simp only [] at h
      exact ⟨kv.1, by cases kv with | mk a b => cases h; simp_all⟩
    | false =>
      rw [hk] at h
      simp only [] at h
      obtain ⟨k', hk'⟩ := ih h
      exact ⟨k', List.mem_cons_of_mem _ hk'⟩

/-- A tiered penalty is nonnegative when every tier value is nonnegative. -/
lemma findTieredPenalty_nonneg (count : ℚ) (tiers : List (String × ℚ))
    (h : ∀ kv ∈ tiers, 0 ≤ kv.2) : 0 ≤ findTieredPenalty count tiers := by
  simp only [findTieredPenalty]
  split_ifs with h0 h1 h2
  · exact le_refl 0
  · obtain ⟨-, hsome⟩ := h1
    cases hv : tiers.lookup ("1") with
    | none => rw [hv] at hsome; simp at hsome
    | some v =>
      obtain ⟨k', hmem⟩ := lookup_eq_some_mem _ _ _ hv
      simpa [hv] using h (k', v) hmem
  · obtain ⟨-, hsome⟩ := h2
    cases hv : tiers.lookup ("2+") with
    | none => rw [hv] at hsome; simp at hsome
    | some v =>
      obtain ⟨k', hmem⟩ := lookup_eq_some_mem _ _ _ hv
      simpa [hv] using h (k', v) hmem
  · exact le_refl 0

lemma find?_first_match {α : Type} (p : α → Bool) (b : α) (post : List α) :
    ∀ pre : List α, (∀ x ∈ pre, p x = false) → p b = true →
    (pre ++ b :: post).find? p = some b := by
  intro pre
  induction pre with
  | nil => intro _ hb; simp [List.find?, hb]
  | cons x xs ih =>
    intro hpre hb
    rw [List.cons_append, List.find?]
    rw [hpre x (List.mem_cons_self x xs)]
    exact ih (fun y hy => hpre y (List.mem_cons_of_mem x hy)) hb

-- =============================================================================
-- ORDER LEMMAS FOR RUBRIC RESOLUTION
-- =============================================================================

lemma monthLe_refl (a : String) : monthLe a a := le_refl a.data

lemma monthLe_total (a b : String) : monthLe a b ∨ monthLe b a := le_total a.data b.data

lemma monthLe_trans {a b c : String} (hab : monthLe a b) (hbc : monthLe b c) :
    monthLe a c := le_trans hab hbc

/-- The insertion sort descending by effective month puts a maximal element of
a nonempty list at the head, and that head is an element of the list. -/
lemma sortByEffectiveDesc_head_max (l : List RubricVersionRow) (hne : l ≠ []) :
    ∃ h t, sortByEffectiveDesc l = h :: t ∧ h ∈ l ∧
      ∀ y ∈ l, monthLe y.effective_month h.effective_month := by
  induction l with
  | nil => exact absurd rfl hne
  | cons x xs ih =>
    by_cases hxs : xs = []
    · subst hxs
      refine ⟨x, [], rfl, List.mem_cons_self x [], ?_⟩
      intro y hy
      rw [List.mem_singleton] at hy
      subst hy
      exact monthLe_refl _
    · obtain ⟨h, t, hsort, hmem, hmax⟩ := ih hxs
      simp only [sortByEffectiveDesc]
      rw [hsort]
      simp only [insertByEffectiveDesc]
      by_cases hcmp : monthLe h.effective_month x.effective_month
      · rw [if_pos hcmp]
        refine ⟨x, h :: t, rfl, List.mem_cons_self x xs, ?_⟩
        intro y hy
        rcases List.mem_cons.mp hy with rfl | hy'
        · exact monthLe_refl _
        · exact monthLe_trans (hmax y hy') hcmp
      · rw [if_neg hcmp]
        refine ⟨h, insertByEffectiveDesc x t, rfl,
          List.mem_cons_of_mem x hmem, ?_⟩
        intro y hy
        rcases List.mem_cons.mp hy with rfl | hy'
        · rcases monthLe_total h.effective_month y.effective_month with hc | hc
          · exact absurd hc hcmp
          · exact hc
        · exact hmax y hy'

lemma findDeductionForCount_nil (count : ℚ) : findDeductionForCount count [] = 0 := by
  by_cases h : count = 0 <;> simp [findDeductionForCount, h]

/-- A rating label missing from the rating map deducts the same as a label
mapped to 0. -/
lemma supervisorDeductionPoints_cons_zero (ratingMap : List (String × ℚ))
    (ps : SupervisorSubmissionPayload) (label metric : String)
    (h : ratingMap.lookup label = none) :
    supervisorDeductionPoints ((label, 0) :: ratingMap) ps metric =
      supervisorDeductionPoints ratingMap ps metric := by
  unfold supervisorDeductionPoints
  rw [List.lookup]
  cases hk : supervisorRating ps metric == label with
  | true =>
    have he : supervisorRating ps metric = label := eq_of_beq hk
    rw [he, h]
    rfl
  | false => rfl

lemma supervisorDeductionRecord_cons_zero (ratingMap : List (String × ℚ))
    (ps : SupervisorSubmissionPayload) (label metric : String)
    (h : ratingMap.lookup label = none) :
    supervisorDeductionRecord ((label, 0) :: ratingMap) ps metric =
      supervisorDeductionRecord ratingMap ps metric := by
  unfold supervisorDeductionRecord
  rw [supervisorDeductionPoints_cons_zero _ _ _ _ h]

lemma supervisorStep_cons_zero (ratingMap : List (String × ℚ))
    (ps : SupervisorSubmissionPayload) (label : String)
    (h : ratingMap.lookup label = none) :
    supervisorStep ((label, 0) :: ratingMap) ps = supervisorStep ratingMap ps := by
  funext acc metric
  rw [supervisorStep_eq, supervisorStep_eq,
    supervisorDeductionPoints_cons_zero _ _ _ _ h,
    supervisorDeductionRecord_cons_zero _ _ _ _ h]

/-- A metric key missing from the admin metric map deducts the same as a key
mapped to an empty bucket list. -/
lemma adminDeductionPoints_cons_empty (rules : AdminRules) (key : String)
    (e : String × ℚ) (h : rules.metrics.lookup key = none) :
    adminDeductionPoints { metrics := (key, ([] : List ErrorBucket)) :: rules.metrics } e =
      adminDeductionPoints rules e := by
  unfold adminDeductionPoints
  rw [List.lookup]
  cases hk : e.1 == key with
  | true =>
    have he : e.1 = key := eq_of_beq hk
    rw [he, h]
    exact findDeductionForCount_nil e.2
  | false => rfl

lemma adminDeductionRecord_cons_empty (rules : AdminRules) (key : String)
    (e : String × ℚ) (h : rules.metrics.lookup key = none) :
    adminDeductionRecord { metrics := (key, ([] : List ErrorBucket)) :: rules.metrics } e =
      adminDeductionRecord rules e := by
  unfold adminDeductionRecord
  rw [adminDeductionPoints_cons_empty _ _ _ h]

lemma adminStep_cons_empty (rules : AdminRules) (key : String)
    (h : rules.metrics.lookup key = none) :
    adminStep { metrics := (key, ([] : List ErrorBucket)) :: rules.metrics } =
      adminStep rules := by
  funext acc e
  rw [adminStep_eq, adminStep_eq, adminDeductionPoints_cons_empty _ _ _ h,
    adminDeductionRecord_cons_empty _ _ _ h]

-- =============================================================================
-- CLAIMS
-- =============================================================================

/-- C4: `findDeductionForCount(count, buckets)` returns 0 when the count is 0
for any bucket list; it returns 0 on an empty bucket list; otherwise it
returns the deduction of the first bucket in list order whose `[min, max]`
range contains the count; and when no bucket matches and the count exceeds the
last bucket's `max` it returns the last bucket's deduction. -/
theorem findDeductionForCount_spec :
    (∀ buckets, findDeductionForCount 0 buckets = 0) ∧
    (∀ count : ℚ, findDeductionForCount count [] = 0) ∧
    (∀ (count : ℚ) (pre : List ErrorBucket) (b : ErrorBucket) (post : List ErrorBucket),
      count ≠ 0 → (∀ b' ∈ pre, ¬ (b'.min ≤ count ∧ count ≤ b'.max)) →
      b.min ≤ count → count ≤ b.max →
      findDeductionForCount count (pre ++ b :: post) = b.deduction) ∧
    (∀ (count : ℚ) (buckets : List ErrorBucket) (lastB : ErrorBucket),
      count ≠ 0 → (∀ b ∈ buckets, ¬ (b.min ≤ count ∧ count ≤ b.max)) →
      buckets.getLast? = some lastB → lastB.max < count →
      findDeductionForCount count buckets = lastB.deduction) := by
  refine ⟨?_, ?_, ?_, ?_⟩
  · intro buckets
    simp [findDeductionForCount]
  · intro count
    by_cases h : count = 0 <;> simp [findDeductionForCount, h]
  · intro count pre b post h0 hpre hmin hmax
    have hfind : (pre ++ b :: post).find?
        (fun b' => decide (b'.min ≤ count ∧ count ≤ b'.max)) = some b :=
      find?_first_match _ b post pre
        (fun x hx => decide_eq_false (hpre x hx))
        (decide_eq_true ⟨hmin, hmax⟩)
    unfold findDeductionForCount
    rw [if_neg h0, hfind]
  · intro count buckets lastB h0 hnone hlast hgt
    have hfind : buckets.find?
        (fun b => decide (b.min ≤ count ∧ count ≤ b.max)) = none :=
      List.find?_eq_none.mpr (fun x hx => by simpa using hnone x hx)
    unfold findDeductionForCount
    rw [if_neg h0, hfind, hlast]
    simp [hgt]

/-- Witness for C4 on the default bucket shape: count 500 falls in the third
bucket (20 points) and count 1000 exceeds every bucket, reusing the last
bucket's deduction. -/
theorem findDeductionForCount_spec_witness :
    findDeductionForCount 500
      ([{ min := 1, max := 2, deduction := 5 }, { min := 3, max := 5, deduction := 10 }] ++
        { min := 6, max := 999, deduction := 20 } :: []) = 20 ∧
    findDeductionForCount 1000
      [{ min := 1, max := 2, deduction := 5 }, { min := 3, max := 5, deduction := 10 },
       { min := 6, max := 999, deduction := 20 }] = 20 :=
  ⟨findDeductionForCount_spec.2.2.1 500 _ _ []
      (by norm_num) (by decide) (by norm_num) (by norm_num),
   findDeductionForCount_spec.2.2.2 1000 _ { min := 6, max := 999, deduction := 20 }
      (by norm_num) (by decide) (by decide) (by norm_num)⟩

/-- C5: `findTieredPenalty(count, tiers)` returns 0 on a zero count, the
`"1"` tier on a count of exactly 1 when that key is present, the `"2+"` tier
on a count of at least 2 when that key is present, and 0 in every other
case. -/
theorem findTieredPenalty_spec :
    (∀ tiers : List (String × ℚ), findTieredPenalty 0 tiers = 0) ∧
    (∀ (tiers : List (String × ℚ)) (v : ℚ), tiers.lookup ("1") = some v →
      findTieredPenalty 1 tiers = v) ∧
    (∀ (tiers : List (String × ℚ)) (count v : ℚ), 2 ≤ count →
      tiers.lookup ("2+") = some v → findTieredPenalty count tiers = v) ∧
    (∀ (tiers : List (String × ℚ)) (count : ℚ), count ≠ 0 →
      ¬(count = 1 ∧ (tiers.lookup ("1")).isSome) →
      ¬(2 ≤ count ∧ (tiers.lookup ("2+")).isSome) →
      findTieredPenalty count tiers = 0) := by
  refine ⟨?_, ?_, ?_, ?_⟩
  · intro tiers
    simp [findTieredPenalty]
  · intro tiers v hv
    simp only [findTieredPenalty]
    rw [if_neg (by norm_num : ¬(1 : ℚ) = 0)]
    simp [hv]
  · intro tiers count v hc hv
    have h0 : ¬count = 0 := by intro h; rw [h] at hc; norm_num at hc
    have h1 : ¬(count = 1 ∧ (tiers.lookup ("1")).isSome) := by
      rintro ⟨h1, -⟩; rw [h1] at hc; norm_num at hc
    simp only [findTieredPenalty]
    rw [if_neg h0, if_neg h1, if_pos ⟨hc, by simp [hv]⟩]
    simp [hv]
  · intro tiers count h0 h1 h2
    simp only [findTieredPenalty]
    rw [if_neg h0, if_neg h1, if_neg h2]

/-- Witness for C5 on the tiers `{"1": 5, "2+": 10}`: counts 1, 2, 7 and 0
give 5, 10, 10 and 0 respectively. -/
theorem findTieredPenalty_spec_witness :
    findTieredPenalty 1 [("1", 5), ("2+", 10)] = 5 ∧
    findTieredPenalty 2 [("1", 5), ("2+", 10)] = 10 ∧
    findTieredPenalty 7 [("1", 5), ("2+", 10)] = 10 ∧
    findTieredPenalty 0 [("1", 5), ("2+", 10)] = 0 :=
  ⟨findTieredPenalty_spec.2.1 _ 5 (by decide),
   findTieredPenalty_spec.2.2.1 _ 2 10 (by norm_num) (by decide),
   findTieredPenalty_spec.2.2.1 _ 7 10 (by norm_num) (by decide),
   findTieredPenalty_spec.1 _⟩

/-- C10: a non-zero count that matches no bucket and does not exceed the last
bucket's `max` (below the first bucket, in a gap between buckets, or
negative) yields a 0 deduction. -/
theorem findDeductionForCount_no_match_zero (count : ℚ) (buckets : List ErrorBucket)
    (lastB : ErrorBucket) (h0 : count ≠ 0)
    (hnone : ∀ b ∈ buckets, ¬ (b.min ≤ count ∧ count ≤ b.max))
    (hlast : buckets.getLast? = some lastB) (hle : count ≤ lastB.max) :
    findDeductionForCount count buckets = 0 := by
  have hfind : buckets.find?
      (fun b => decide (b.min ≤ count ∧ count ≤ b.max)) = none :=
    List.find?_eq_none.mpr (fun x hx => by simpa using hnone x hx)
  unfold findDeductionForCount
  rw [if_neg h0, hfind, hlast]
  simp [not_lt.mpr hle]

/-- Witness for C10 on the default bucket shape: the fractional count 5/2
falls in a gap between the first two buckets, and the negative count -1 is
below every bucket; both deduct 0. -/
theorem findDeductionForCount_no_match_zero_witness :
    findDeductionForCount (5/2)
      [{ min := 1, max := 2, deduction := 5 }, { min := 3, max := 5, deduction := 10 },
       { min := 6, max := 999, deduction := 20 }] = 0 ∧
    findDeductionForCount (-1)
      [{ min := 1, max := 2, deduction := 5 }, { min := 3, max := 5, deduction := 10 },
       { min := 6, max := 999, deduction := 20 }] = 0 :=
  ⟨findDeductionForCount_no_match_zero (5/2) _ { min := 6, max := 999, deduction := 20 }
      (by norm_num) (by intro b hb; fin_cases hb <;> norm_num) rfl (by norm_num),
   findDeductionForCount_no_match_zero (-1) _ { min := 6, max := 999, deduction := 20 }
      (by norm_num) (by intro b hb; fin_cases hb <;> norm_num) rfl (by norm_num)⟩

/-- C9: the admin scorer never reads the optional `individual_interaction`
field of the admin payload: two payloads that agree on the five counts and
differ only in that field produce the same score and the same deductions. -/
theorem calculateAdminScore_ignores_individual_interaction (rubric : RubricV1)
    (c1 c2 c3 c4 c5 : ℚ) (i1 i2 : Option String) :
    calculateAdminScore
      { isp_goal_errors := c1, isp_behavior_errors := c2, mar_errors := c3,
        attendance_tardies_callouts := c4, attendance_ncns := c5,
        individual_interaction := i1 } rubric =
    calculateAdminScore
      { isp_goal_errors := c1, isp_behavior_errors := c2, mar_errors := c3,
        attendance_tardies_callouts := c4, attendance_ncns := c5,
        individual_interaction := i2 } rubric := rfl

/-- C1 counterexample: with a rubric whose per-unit overdue-training penalty
is negative (nothing in the code rules this out), one overdue training yields
a recruiter score of 105, outside [0, 100]. -/
theorem recruiterScore_out_of_range_counterexample :
    ¬((calculateRecruiterScore
        { overdue_trainings := 1, retrainings := 0, edas_past_6_months := 0 }
        negativePenaltyRubric).score ≤ 100) := by
  have h : (calculateRecruiterScore
      { overdue_trainings := 1, retrainings := 0, edas_past_6_months := 0 }
      negativePenaltyRubric).score = 105 := by
    rw [calculateRecruiterScore_eq]
    norm_num [negativePenaltyRubric, DEFAULT_RUBRIC_V1, max_def]
  rw [h]
  norm_num

/-- C1 (amended): for every rubric and payload, the admin and supervisor
scores lie in [0, 100] unconditionally, and the recruiter score is always at
least 0; the recruiter score is moreover at most 100 provided the rubric's
recruiter penalty values (the per-unit overdue-training penalty and the tier
values of the EDA and retraining maps) are nonnegative — the counterexample
shows that proviso is needed. -/
theorem categoryScores_in_range (rubric : RubricV1)
    (pa : AdminSubmissionPayload) (ps : SupervisorSubmissionPayload)
    (pr : RecruiterSubmissionPayload) :
    (0 ≤ (calculateAdminScore pa rubric).score ∧
      (calculateAdminScore pa rubric).score ≤ 100) ∧
    (0 ≤ (calculateSupervisorScore ps rubric).score ∧
      (calculateSupervisorScore ps rubric).score ≤ 100) ∧
    (0 ≤ (calculateRecruiterScore pr rubric).score ∧
      (0 ≤ rubric.recruiter_rules.overdue_training_penalty_per →
       (∀ kv ∈ rubric.recruiter_rules.eda_penalty, 0 ≤ kv.2) →
       (∀ kv ∈ rubric.recruiter_rules.retraining_penalty, 0 ≤ kv.2) →
       (calculateRecruiterScore pr rubric).score ≤ 100)) := by
  refine ⟨⟨?_, ?_⟩, ⟨?_, ?_⟩, ⟨?_, ?_⟩⟩
  · simp only [calculateAdminScore_eq]
    exact score_clamp_nonneg _
  · simp only [calculateAdminScore_eq]
    refine score_clamp_le _ (List.sum_nonneg ?_)
    intro x hx
    obtain ⟨e, he, rfl⟩ := List.mem_map.mp hx
    have hpos : 0 < adminDeductionPoints rubric.admin_rules e := by
      simpa using (List.mem_filter.mp he).2
    exact le_of_lt hpos
  · simp only [calculateSupervisorScore_eq]
    exact score_clamp_nonneg _
  · simp only [calculateSupervisorScore_eq]
    refine score_clamp_le _ (List.sum_nonneg ?_)
    intro x hx
    obtain ⟨m, hm, rfl⟩ := List.mem_map.mp hx
    have hpos : 0 < supervisorDeductionPoints rubric.supervisor_rating_map ps m := by
      simpa using (List.mem_filter.mp hm).2
    exact le_of_lt hpos
  · simp only [calculateRecruiterScore_eq]
    exact score_clamp_nonneg _
  · intro hper heda hret
    simp only [calculateRecruiterScore_eq]
    refine score_clamp_le _ ?_
    have h1 : 0 ≤ (if 0 < pr.overdue_trainings then
        pr.overdue_trainings * rubric.recruiter_rules.overdue_training_penalty_per
      else 0) := by
      split_ifs with h
      · exact mul_nonneg (le_of_lt h) hper
      · exact le_refl 0
    have h2 : 0 ≤ (if 0 < pr.edas_past_6_months then
        findTieredPenalty pr.edas_past_6_months rubric.recruiter_rules.eda_penalty
      else 0) := by
      split_ifs with h
      · exact findTieredPenalty_nonneg _ _ heda
      · exact le_refl 0
    have h3 : 0 ≤ (if 0 < pr.retrainings then
        findTieredPenalty pr.retrainings rubric.recruiter_rules.retraining_penalty
      else 0) := by
      split_ifs with h
      · exact findTieredPenalty_nonneg _ _ hret
      · exact le_refl 0
    linarith

/-- Witness for the amended C1 at the default rubric and the spec's concrete
payloads: every category score lands in [0, 100]. -/
theorem categoryScores_in_range_witness :
    (0 ≤ (calculateAdminScore
        { isp_goal_errors := 2, isp_behavior_errors := 0, mar_errors := 6,
          attendance_tardies_callouts := 0, attendance_ncns := 0,
          individual_interaction := none } DEFAULT_RUBRIC_V1).score ∧
      (calculateAdminScore
        { isp_goal_errors := 2, isp_behavior_errors := 0, mar_errors := 6,
          attendance_tardies_callouts := 0, attendance_ncns := 0,
          individual_interaction := none } DEFAULT_RUBRIC_V1).score ≤ 100) ∧
    (0 ≤ (calculateSupervisorScore
        { attitude := "Meets Expectations", reliability := "Meets Expectations",
          proactivity := "Meets Expectations", flexibility := "Meets Expectations",
          individual_interaction := "Meets Expectations" } DEFAULT_RUBRIC_V1).score ∧
      (calculateSupervisorScore
        { attitude := "Meets Expectations", reliability := "Meets Expectations",
          proactivity := "Meets Expectations", flexibility := "Meets Expectations",
          individual_interaction := "Meets Expectations" } DEFAULT_RUBRIC_V1).score ≤ 100) ∧
    (0 ≤ (calculateRecruiterScore
        { overdue_trainings := 2, retrainings := 0, edas_past_6_months := 1 }
        DEFAULT_RUBRIC_V1).score ∧
      (calculateRecruiterScore
        { overdue_trainings := 2, retrainings := 0, edas_past_6_months := 1 }
        DEFAULT_RUBRIC_V1).score ≤ 100) :=
  ⟨(categoryScores_in_range DEFAULT_RUBRIC_V1
      { isp_goal_errors := 2, isp_behavior_errors := 0, mar_errors := 6,
        attendance_tardies_callouts := 0, attendance_ncns := 0,
        individual_interaction := none }
      { attitude := "Meets Expectations", reliability := "Meets Expectations",
        proactivity := "Meets Expectations", flexibility := "Meets Expectations",
        individual_interaction := "Meets Expectations" }
      { overdue_trainings := 2, retrainings := 0, edas_past_6_months := 1 }).1,
   (categoryScores_in_range DEFAULT_RUBRIC_V1
      { isp_goal_errors := 2, isp_behavior_errors := 0, mar_errors := 6,
        attendance_tardies_callouts := 0, attendance_ncns := 0,
        individual_interaction := none }
      { attitude := "Meets Expectations", reliability := "Meets Expectations",
        proactivity := "Meets Expectations", flexibility := "Meets Expectations",
        individual_interaction := "Meets Expectations" }
      { overdue_trainings := 2, retrainings := 0, edas_past_6_months := 1 }).2.1,
   (categoryScores_in_range DEFAULT_RUBRIC_V1
      { isp_goal_errors := 2, isp_behavior_errors := 0, mar_errors := 6,
        attendance_tardies_callouts := 0, attendance_ncns := 0,
        individual_interaction := none }
      { attitude := "Meets Expectations", reliability := "Meets Expectations",
        proactivity := "Meets Expectations", flexibility := "Meets Expectations",
        individual_interaction := "Meets Expectations" }
      { overdue_trainings := 2, retrainings := 0, edas_past_6_months := 1 }).2.2.1,
   (categoryScores_in_range DEFAULT_RUBRIC_V1
      { isp_goal_errors := 2, isp_behavior_errors := 0, mar_errors := 6,
        attendance_tardies_callouts := 0, attendance_ncns := 0,
        individual_interaction := none }
      { attitude := "Meets Expectations", reliability := "Meets Expectations",
        proactivity := "Meets Expectations", flexibility := "Meets Expectations",
        individual_interaction := "Meets Expectations" }
      { overdue_trainings := 2, retrainings := 0, edas_past_6_months := 1 }).2.2.2
     (by decide) (by decide) (by decide)⟩

/-- C3 counterexample: with a zero per-unit overdue-training penalty, a
positive overdue-training count still pushes a deduction entry, and that
entry's `deduction_points` is 0 — the recruiter scorer guards on counts, not
on computed deductions. -/
theorem recruiterDeductions_zero_entry_counterexample :
    ∃ d ∈ (calculateRecruiterScore
        { overdue_trainings := 1, retrainings := 0, edas_past_6_months := 0 }
        zeroPenaltyRubric).deductions, d.deduction_points = 0 := by
  refine ⟨recruiterOverdueRecord
    { overdue_trainings := 1, retrainings := 0, edas_past_6_months := 0 }
    zeroPenaltyRubric, ?_, ?_⟩
  · rw [calculateRecruiterScore_eq]
    norm_num
  · norm_num [recruiterOverdueRecord, zeroPenaltyRubric, DEFAULT_RUBRIC_V1]

/-- C3 (amended): the supervisor and admin scorers record exactly one
deduction entry per metric whose computed deduction is positive, in metric
order, and no entry for the other metrics; the recruiter scorer records
exactly one entry per rule whose input count is positive — even when the
computed deduction is 0, as the counterexample shows — and no entry for a
rule whose count is not positive. -/
theorem deductionLists_characterization (rubric : RubricV1)
    (ps : SupervisorSubmissionPayload) (pa : AdminSubmissionPayload)
    (pr : RecruiterSubmissionPayload) :
    (calculateSupervisorScore ps rubric).deductions =
      (supervisorMetricNames.filter (fun m =>
        decide (0 < supervisorDeductionPoints rubric.supervisor_rating_map ps m))).map
        (supervisorDeductionRecord rubric.supervisor_rating_map ps) ∧
    (calculateAdminScore pa rubric).deductions =
      ((adminMetricMap pa).filter (fun e =>
        decide (0 < adminDeductionPoints rubric.admin_rules e))).map
        (adminDeductionRecord rubric.admin_rules) ∧
    (calculateRecruiterScore pr rubric).deductions =
      (if 0 < pr.overdue_trainings then [recruiterOverdueRecord pr rubric] else []) ++
      (if 0 < pr.edas_past_6_months then [recruiterEdaRecord pr rubric] else []) ++
      (if 0 < pr.retrainings then [recruiterRetrainingRecord pr rubric] else []) := by
  refine ⟨?_, ?_, ?_⟩
  · simp only [calculateSupervisorScore_eq]
  · simp only [calculateAdminScore_eq]
  · simp only [calculateRecruiterScore_eq]

/-- C6: when some stored version is effective no later than the target month,
`getRubricForMonth` returns a stored row whose effective month is at most the
target and is greatest among all such rows; when no stored version qualifies,
it returns the built-in default rubric under the `"default"` label. -/
theorem getRubricForMonth_spec (store : List RubricVersionRow) (month : String) :
    ((∃ r ∈ store, monthLe r.effective_month month) →
      ∃ r ∈ store, monthLe r.effective_month month ∧
        (∀ r' ∈ store, monthLe r'.effective_month month →
          monthLe r'.effective_month r.effective_month) ∧
        getRubricForMonth store month = (r.rubric_version, r.rubric_json)) ∧
    ((∀ r ∈ store, ¬ monthLe r.effective_month month) →
      getRubricForMonth store month = ("default", DEFAULT_RUBRIC_V1)) := by
  constructor
  · rintro ⟨r0, hr0, hle0⟩
    set flt := store.filter (fun r => decide (monthLe r.effective_month month)) with hflt
    have hne : flt ≠ [] := by
      intro hnil
      have hmem0 : r0 ∈ flt := List.mem_filter.mpr ⟨hr0, decide_eq_true hle0⟩
      rw [hnil] at hmem0
      exact absurd hmem0 (List.not_mem_nil r0)
    obtain ⟨h, t, hsort, hmem, hmax⟩ := sortByEffectiveDesc_head_max flt hne
    have hmemf := List.mem_filter.mp hmem
    refine ⟨h, hmemf.1, of_decide_eq_true hmemf.2, ?_, ?_⟩
    · intro r' hr' hle'
      exact hmax r' (List.mem_filter.mpr ⟨hr', decide_eq_true hle'⟩)
    · unfold getRubricForMonth queryLatestApplicable
      rw [← hflt, hsort]
      rfl
  · intro hall
    have hfltnil : store.filter (fun r => decide (monthLe r.effective_month month)) = [] :=
      List.filter_eq_nil_iff.mpr (fun r hr => by simpa using hall r hr)
    unfold getRubricForMonth queryLatestApplicable
    rw [hfltnil]
    rfl

/-- Witness for C6 on a store with versions effective 2025-01 and 2025-06:
month 2025-03 resolves to the 2025-01 version, month 2025-07 to the 2025-06
version, and month 2024-12 (before any version) to the built-in default. -/
theorem getRubricForMonth_spec_witness :
    (getRubricForMonth demoRubricStore ("2025-03")).1 = "2025.01" ∧
    (getRubricForMonth demoRubricStore ("2025-07")).1 = "2025.06" ∧
    getRubricForMonth demoRubricStore ("2024-12") = ("default", DEFAULT_RUBRIC_V1) ∧
    (∃ r ∈ demoRubricStore, monthLe r.effective_month ("2025-03") ∧
      (∀ r' ∈ demoRubricStore, monthLe r'.effective_month ("2025-03") →
        monthLe r'.effective_month r.effective_month) ∧
      getRubricForMonth demoRubricStore ("2025-03") = (r.rubric_version, r.rubric_json)) :=
  ⟨by decide, by decide,
   (getRubricForMonth_spec demoRubricStore ("2024-12")).2 (by decide),
   (getRubricForMonth_spec demoRubricStore ("2025-03")).1
     ⟨demoRow2501, List.mem_cons_self demoRow2501 [demoRow2506], by decide⟩⟩

/-- C7: a supervisor rating label absent from the rating map and an admin
metric key absent from the admin metric map each contribute zero deduction
and produce no deduction entry, and scoring is exactly what it would be if
the label were mapped to 0 deduction points and the key to an empty bucket
list — the remaining metrics are scored unchanged. -/
theorem unknownKeys_skipped (rubric : RubricV1) (ps : SupervisorSubmissionPayload)
    (pa : AdminSubmissionPayload) (label metricKey : String)
    (hsup : rubric.supervisor_rating_map.lookup label = none)
    (hadm : rubric.admin_rules.metrics.lookup metricKey = none) :
    (calculateSupervisorScore ps rubric =
      calculateSupervisorScore ps
        { rubric with
          supervisor_rating_map := (label, 0) :: rubric.supervisor_rating_map }) ∧
    (∀ d ∈ (calculateSupervisorScore ps rubric).deductions,
      d.value ≠ DeductionValue.str label) ∧
    (calculateAdminScore pa rubric =
      calculateAdminScore pa
        { rubric with
          admin_rules :=
            { metrics := (metricKey, ([] : List ErrorBucket)) :: rubric.admin_rules.metrics } }) ∧
    (∀ d ∈ (calculateAdminScore pa rubric).deductions, d.metric ≠ metricKey) := by
  refine ⟨?_, ?_, ?_, ?_⟩
  · unfold calculateSupervisorScore
    rw [show ({ rubric with
          supervisor_rating_map := (label, 0) :: rubric.supervisor_rating_map } :
        RubricV1).supervisor_rating_map = (label, 0) :: rubric.supervisor_rating_map
      from rfl]
    rw [supervisorStep_cons_zero _ _ _ hsup]
  · intro d hd
    rw [calculateSupervisorScore_eq] at hd
    simp only [ScoreResult.deductions] at hd
    obtain ⟨m, hm, rfl⟩ := List.mem_map.mp hd
    have hpos : 0 < supervisorDeductionPoints rubric.supervisor_rating_map ps m := by
      simpa using (List.mem_filter.mp hm).2
    intro hval
    have hlabel : supervisorRating ps m = label := by
      simpa [supervisorDeductionRecord] using hval
    rw [supervisorDeductionPoints, hlabel, hsup] at hpos
    simp at hpos
  · unfold calculateAdminScore
    rw [show ({ rubric with
          admin_rules :=
            { metrics := (metricKey, ([] : List ErrorBucket)) :: rubric.admin_rules.metrics } } :
        RubricV1).admin_rules =
        { metrics := (metricKey, ([] : List ErrorBucket)) :: rubric.admin_rules.metrics }
      from rfl]
    rw [adminStep_cons_empty _ _ hadm]
  · intro d hd
    rw [calculateAdminScore_eq] at hd
    simp only [ScoreResult.deductions] at hd
    obtain ⟨e, he, rfl⟩ := List.mem_map.mp hd
    have hpos : 0 < adminDeductionPoints rubric.admin_rules e := by
      simpa using (List.mem_filter.mp he).2
    intro hkey
    have hkey' : e.1 = metricKey := by
      simpa [adminDeductionRecord] using hkey
    rw [adminDeductionPoints, hkey', hadm] at hpos
    simp at hpos

/-- Witness for C7 at the default rubric: the rating label `Phenomenal` and
the metric key `typo_metric` are unknown; scoring skips them and the other
metrics proceed unchanged. -/
theorem unknownKeys_skipped_witness :
    (calculateSupervisorScore witnessUnknownSupPayload DEFAULT_RUBRIC_V1 =
      calculateSupervisorScore witnessUnknownSupPayload
        { DEFAULT_RUBRIC_V1 with
          supervisor_rating_map :=
            ("Phenomenal", 0) :: DEFAULT_RUBRIC_V1.supervisor_rating_map }) ∧
    (∀ d ∈ (calculateSupervisorScore witnessUnknownSupPayload DEFAULT_RUBRIC_V1).deductions,
      d.value ≠ DeductionValue.str ("Phenomenal")) ∧
    (calculateAdminScore witnessAdminPayload DEFAULT_RUBRIC_V1 =
      calculateAdminScore witnessAdminPayload
        { DEFAULT_RUBRIC_V1 with
          admin_rules :=
            { metrics := ("typo_metric", ([] : List ErrorBucket)) ::
                DEFAULT_RUBRIC_V1.admin_rules.metrics } }) ∧
    (∀ d ∈ (calculateAdminScore witnessAdminPayload DEFAULT_RUBRIC_V1).deductions,
      d.metric ≠ "typo_metric") :=
  unknownKeys_skipped DEFAULT_RUBRIC_V1 witnessUnknownSupPayload witnessAdminPayload
    ("Phenomenal") ("typo_metric") (by decide) (by decide)

lemma computeScoresForEmployee_finalScore (store : List RubricVersionRow)
    (month : String) (submissions : List SubmissionRow) :
    (computeScoresForEmployee store month submissions).finalScore =
      match (computeScoresForEmployee store month submissions).adminScore,
            (computeScoresForEmployee store month submissions).supervisorScore,
            (computeScoresForEmployee store month submissions).recruiterScore with
      | some a, some s, some r =>
        some (jsRound (a * (getRubricForMonth store month).2.weights.admin +
          s * (getRubricForMonth store month).2.weights.supervisor +
          r * (getRubricForMonth store month).2.weights.recruiter))
      | _, _, _ => none := rfl

/-- C2: the final score is null whenever any of the three category scores is
null, and when all three are present it is the half-up rounding of the
weighted sum of the category scores with the resolved rubric's weights. -/
theorem finalScore_spec (store : List RubricVersionRow) (month : String)
    (submissions : List SubmissionRow) :
    (((computeScoresForEmployee store month submissions).adminScore = none ∨
      (computeScoresForEmployee store month submissions).supervisorScore = none ∨
      (computeScoresForEmployee store month submissions).recruiterScore = none) →
      (computeScoresForEmployee store month submissions).finalScore = none) ∧
    (∀ a s r : ℚ,
      (computeScoresForEmployee store month submissions).adminScore = some a →
      (computeScoresForEmployee store month submissions).supervisorScore = some s →
      (computeScoresForEmployee store month submissions).recruiterScore = some r →
      (computeScoresForEmployee store month submissions).finalScore =
        some (jsRound (a * (getRubricForMonth store month).2.weights.admin +
          s * (getRubricForMonth store month).2.weights.supervisor +
          r * (getRubricForMonth store month).2.weights.recruiter))) := by
  constructor
  · intro h
    rw [computeScoresForEmployee_finalScore]
    rcases h with h | h | h
    · rw [h]
    · rw [h]
      cases (computeScoresForEmployee store month submissions).adminScore <;> rfl
    · rw [h]
      rcases hA : (computeScoresForEmployee store month submissions).adminScore with _ | a
      · rfl
      · cases (computeScoresForEmployee store month submissions).supervisorScore <;> rfl
  · intro a s r ha hs hr
    rw [computeScoresForEmployee_finalScore, ha, hs, hr]

/-- Witness for C2: submissions scoring admin 90, supervisor 85 and
recruiter 70 under the default rubric (weights 0.4 / 0.4 / 0.2) yield the
final score round(90·0.4 + 85·0.4 + 70·0.2) = 84. -/
theorem finalScore_spec_witness :
    (computeScoresForEmployee [] ("2025-01") witnessSubmissions).finalScore = some 84 := by
  have ha : (computeScoresForEmployee [] ("2025-01") witnessSubmissions).adminScore =
      some 90 := by
    show some ((calculateAdminScore witnessAdminPayload DEFAULT_RUBRIC_V1).score) = some 90
    rw [show (calculateAdminScore witnessAdminPayload DEFAULT_RUBRIC_V1).score = 90 from by
      show max (0 : ℚ) (100 - (0 + 10)) = 90
      norm_num [max_def]]
  have hs : (computeScoresForEmployee [] ("2025-01") witnessSubmissions).supervisorScore =
      some 85 := by
    show some ((calculateSupervisorScore witnessSupervisorPayload DEFAULT_RUBRIC_V1).score) =
      some 85
    rw [show (calculateSupervisorScore witnessSupervisorPayload DEFAULT_RUBRIC_V1).score = 85
      from by
      show max (0 : ℚ) (100 - (0 + 3 + 3 + 3 + 3 + 3)) = 85
      norm_num [max_def]]
  have hr : (computeScoresForEmployee [] ("2025-01") witnessSubmissions).recruiterScore =
      some 70 := by
    show some ((calculateRecruiterScore witnessRecruiterPayload DEFAULT_RUBRIC_V1).score) =
      some 70
    rw [show (calculateRecruiterScore witnessRecruiterPayload DEFAULT_RUBRIC_V1).score = 70
      from by
      show max (0 : ℚ) (100 - (0 + 2 * 15)) = 70
      norm_num [max_def]]
  have h := (finalScore_spec [] ("2025-01") witnessSubmissions).2 90 85 70 ha hs hr
  rw [h, show getRubricForMonth [] ("2025-01") = ("default", DEFAULT_RUBRIC_V1) from rfl]
  norm_num [DEFAULT_RUBRIC_V1, jsRound]

/-- C8: `computeScoresForEmployee` is a pure function of the rubric store,
the month and the stored submissions — the embedding makes both store reads
explicit parameters and the computation touches nothing else — so recomputing
on identical inputs yields identical category scores, an identical final
score, an identical deductions breakdown, and a byte-identical serialized
`deductions_json`. -/
theorem computeScores_deterministic (store : List RubricVersionRow) (month : String)
    (submissions : List SubmissionRow) :
    computeScoresForEmployee store month submissions =
      computeScoresForEmployee store month submissions ∧
    deductionsBreakdownJson (computeScoresForEmployee store month submissions).deductions =
      deductionsBreakdownJson (computeScoresForEmployee store month submissions).deductions :=
  ⟨rfl, rfl⟩

end NesScorecard
